import Mathlib

/-!
Shallow embedding of the authorization orchestration engine of the
oaa-web-server repository.

The embedded code is `OrchestrationService`
(src/auth/orchestration/orchestration.service.ts) together with the data it
reads: the `UserRole` / `KycStatus` / `AuditAction` enums
(src/common/enums/index.ts) and the `User` entity (src/entities/user.entity.ts).

Modelling conventions:
* The ambient state consulted by one evaluation (the wall-clock hour from
  `new Date().getHours()`, the ISO date string, the results of the two
  audit-repository `count` queries and the outcome of `auditRepository.save`)
  is collected in an explicit `AuditEnv` value passed to every function that
  performs I/O in the source.  A count query that throws is an
  `Except.error`; a failing `save` is `saveOk = false`.
* JavaScript truthiness on the optional metadata strings and numbers is made
  explicit: a missing field is `none`, an empty string and the number 0 are
  falsy.
* `orchestrateAuthorization` returns the decision together with the list of
  audit records actually persisted during the evaluation.
* `orchestrateAuthorizationRaw` models the raw (untyped) call surface used by
  the malformed-context claims: the method's first statement interpolates
  `context.user.id` outside the `try` block, so an absent subject raises a
  TypeError that propagates to the caller; an absent `resource` / `action`
  behaves exactly like the string "undefined" (the property lookup misses
  every key of the permission matrix and every membership test on the action
  lists fails), which is how it is coerced below.
-/

namespace OAA

/-- The `UserRole` enum of src/common/enums/index.ts. -/
inductive UserRole
  | bank_admin
  | account_manager
  | client
  | auditor
  | compliance_officer
deriving DecidableEq, BEq, Repr

/-- The string value of each `UserRole` member (used in reason messages). -/
def UserRole.str : UserRole → String
  | .bank_admin => "bank_admin"
  | .account_manager => "account_manager"
  | .client => "client"
  | .auditor => "auditor"
  | .compliance_officer => "compliance_officer"

/-- The `KycStatus` enum of src/common/enums/index.ts. -/
inductive KycStatus
  | not_started
  | in_progress
  | approved
  | rejected
  | expired
deriving DecidableEq, BEq, Repr

/-- The fields of the `User` entity (src/entities/user.entity.ts) that the
orchestration engine reads.  The entity declares many further columns
(email, password, names, twoFactorEnabled, ...) that the engine never
touches; crucially, it declares NO `metadata` column, so the expression
`user.metadata?.trustedDevices` in `checkContextualAccess` is always
`undefined` at runtime (see `trustedDevices`). -/
structure User where
  id : String
  role : UserRole
  kycStatus : KycStatus
deriving DecidableEq, Repr

/-- Value of `user.metadata?.trustedDevices || []`: the `User` entity has no
`metadata` column, so the optional chain is always `undefined` and the
expression always evaluates to the empty array. -/
def trustedDevices (_ : User) : List String := []

/-- The caller-supplied metadata keys that the engine actually consults
(`ipAddress`, `deviceFingerprint`, `amount`); the remaining keys set by the
guard (userAgent, method, endpoint, ...) are never read by the engine. -/
structure AuthMetadata where
  ipAddress : Option String := none
  deviceFingerprint : Option String := none
  amount : Option Int := none
deriving DecidableEq, Repr

/-- The `AuthContext` interface of orchestration.service.ts (the typed call
surface: `user` is mandatory). -/
structure AuthContext where
  user : User
  resource : String
  action : String
  metadata : Option AuthMetadata := none
deriving DecidableEq, Repr

/-- `context.metadata?.ipAddress`. -/
def AuthContext.mIpAddress (ctx : AuthContext) : Option String :=
  ctx.metadata.bind fun m => m.ipAddress

/-- `context.metadata?.deviceFingerprint`. -/
def AuthContext.mDeviceFingerprint (ctx : AuthContext) : Option String :=
  ctx.metadata.bind fun m => m.deviceFingerprint

/-- `context.metadata?.amount`. -/
def AuthContext.mAmount (ctx : AuthContext) : Option Int :=
  ctx.metadata.bind fun m => m.amount

/-- The recommendation literals of the `RiskAssessment` interface. -/
inductive Recommendation
  | ALLOW
  | CHALLENGE
  | DENY
  | MONITOR
deriving DecidableEq, BEq, Repr

/-- The `RiskAssessment` interface of orchestration.service.ts. -/
structure RiskAssessment where
  score : Nat
  factors : List String
  recommendation : Recommendation
deriving DecidableEq, Repr

/-- The monitoring-level literals of the `SessionRequirements` interface. -/
inductive MonitoringLevel
  | STANDARD
  | ENHANCED
  | STRICT
deriving DecidableEq, BEq, Repr

/-- The `SessionRequirements` interface; every field is optional in the
source, so unset fields are `none`. -/
structure SessionRequirements where
  requireMFA : Option Bool := none
  maxSessionDuration : Option Nat := none
  requireReauth : Option Bool := none
  monitoringLevel : Option MonitoringLevel := none
deriving DecidableEq, Repr

/-- The `AuthDecision` interface; the optional fields default to `none`
exactly when the source constructs a decision object without them. -/
structure AuthDecision where
  allowed : Bool
  reason : String
  additionalChecks : Option (List String) := none
  riskAssessment : Option RiskAssessment := none
  sessionRequirements : Option SessionRequirements := none
deriving DecidableEq, Repr

/-- The ambient state and external collaborators consulted during one
evaluation: `currentHour` is `new Date().getHours()`, `todayStr` is
`new Date().toISOString().split('T')[0]`, the two `Except` fields are the
results of the audit-repository count queries issued by
`getRecentUserActions` and `detectSuspiciousPatterns` (an `Except.error`
models the query throwing), and `saveOk` tells whether
`auditRepository.save` succeeds. -/
structure AuditEnv where
  currentHour : Nat
  todayStr : String
  recentActionsResult : Except String Nat
  failedLoginResult : Except String Nat
  saveOk : Bool

/-- The shape of one row written to the `audit_logs` table by
`logAuthEvent`. -/
structure AuditRecord where
  userId : String
  action : String
  resourceType : String
  resourceId : String
  details : String
deriving DecidableEq, Repr

/-- The permission matrix object literal inside `checkRoleBasedAccess`.
The object has entries for CLIENT, ACCOUNT_MANAGER, COMPLIANCE_OFFICER and
BANK_ADMIN; AUDITOR has no key, which `permissions[user.role] || {}`
turns into the empty map (`none` here, read through `Option.getD []`). -/
def permissions : UserRole → Option (List (String × List String))
  | .client => some
      [("banking/accounts", ["read", "create"]),
       ("banking/transactions", ["read", "create"]),
       ("profile", ["read", "update"]),
       ("dashboard", ["read"])]
  | .account_manager => some
      [("banking/accounts", ["read", "create", "update", "approve"]),
       ("banking/transactions", ["read", "create", "approve"]),
       ("customer", ["read", "update"]),
       ("reports", ["read"]),
       ("dashboard", ["read"])]
  | .compliance_officer => some
      [("banking/accounts", ["read", "suspend", "investigate"]),
       ("banking/transactions", ["read", "investigate", "flag"]),
       ("audit", ["read", "export"]),
       ("compliance", ["read", "update"]),
       ("reports", ["read", "export"]),
       ("dashboard", ["read"])]
  | .bank_admin => some [("*", ["*"])]
  | .auditor => none

/-- `userPermissions[resource] || userPermissions['*'] || []`. -/
def resourcePermissionsFor (role : UserRole) (resource : String) : List String :=
  let userPermissions := (permissions role).getD []
  ((userPermissions.lookup resource).orElse fun _ =>
    userPermissions.lookup "*").getD []

/-- `checkRoleBasedAccess` of orchestration.service.ts (pure: the `async`
wrapper performs no I/O). -/
def checkRoleBasedAccess (ctx : AuthContext) : AuthDecision :=
  let resourcePermissions := resourcePermissionsFor ctx.user.role ctx.resource
  let hasAccess :=
    resourcePermissions.contains ctx.action || resourcePermissions.contains "*"
  { allowed := hasAccess,
    reason :=
      if hasAccess then
        "Role " ++ ctx.user.role.str ++ " has " ++ ctx.action ++
          " access to " ++ ctx.resource
      else
        "Role " ++ ctx.user.role.str ++ " lacks " ++ ctx.action ++
          " access to " ++ ctx.resource }

/-- The night-hours restriction string pushed by `checkContextualAccess`. -/
def nightHoursRestriction : String :=
  "Banking operations restricted during night hours (6 AM - 10 PM)"

/-- The `suspiciousIPs` array inside `checkContextualAccess`. -/
def suspiciousIPs : List String := ["192.168.1.100", "10.0.0.50"]

/-- `checkContextualAccess` of orchestration.service.ts.  The `if` guards on
`metadata?.ipAddress` and `metadata?.deviceFingerprint` are JavaScript
truthiness tests, hence the explicit non-empty-string conditions. -/
def checkContextualAccess (env : AuditEnv) (ctx : AuthContext) : AuthDecision :=
  let timeRestrictions : List String :=
    if ctx.user.role = UserRole.client ∧
        (env.currentHour < 6 ∨ env.currentHour > 22) then
      [nightHoursRestriction]
    else []
  let ipRestrictions : List String :=
    match ctx.mIpAddress with
    | some ip =>
        if ip != "" && suspiciousIPs.contains ip then
          ["Access from suspicious IP address"]
        else []
    | none => []
  let deviceRestrictions : List String :=
    match ctx.mDeviceFingerprint with
    | some fp =>
        if fp != "" && !((trustedDevices ctx.user).contains fp) then
          ["Access from unrecognized device"]
        else []
    | none => []
  let restrictions := timeRestrictions ++ ipRestrictions ++ deviceRestrictions
  { allowed := restrictions.isEmpty,
    reason :=
      if restrictions.isEmpty then "All contextual checks passed"
      else String.intercalate "; " restrictions,
    additionalChecks := some restrictions }

/-- The `highRiskActions` array inside `assessRisk`. -/
def highRiskActions : List String := ["transfer", "withdraw", "delete", "admin"]

/-- Guard of the `recentActions > 50` risk rule of `assessRisk`. -/
def riskCondFrequency (recentActions : Nat) : Bool :=
  decide (recentActions > 50)

/-- Guard of the `highRiskActions.includes(action)` risk rule. -/
def riskCondAction (ctx : AuthContext) : Bool :=
  highRiskActions.contains ctx.action

/-- Guard of the `metadata?.amount && metadata.amount > 100000` risk rule
(`0` is falsy in JavaScript, hence the explicit `a != 0`). -/
def riskCondAmount (ctx : AuthContext) : Bool :=
  match ctx.mAmount with
  | some a => (a != 0) && decide (a > 100000)
  | none => false

/-- Guard of the `currentHour < 6 || currentHour > 22` risk rule. -/
def riskCondTime (currentHour : Nat) : Bool :=
  decide (currentHour < 6) || decide (currentHour > 22)

/-- Guard of the `knownBadIPs.includes(metadata.ipAddress)` risk rule (note
that `assessRisk` uses the one-element list, unlike `checkContextualAccess`). -/
def riskCondIP (ctx : AuthContext) : Bool :=
  match ctx.mIpAddress with
  | some ip => (ip != "") && ["192.168.1.100"].contains ip
  | none => false

/-- Guard of the `user.kycStatus !== KycStatus.APPROVED` risk rule. -/
def riskCondKyc (ctx : AuthContext) : Bool :=
  ctx.user.kycStatus != KycStatus.approved

/-- The body of `assessRisk` after the `getRecentUserActions` count query has
resolved to `recentActions`.  The source accumulates `riskScore` with `+=`
under six independent guards; the accumulation is written here as one sum in
the same guard order (frequency, action kind, amount, hour, IP, KYC), and the
factor list is accumulated in the same order. -/
def assessRiskPure (recentActions : Nat) (ctx : AuthContext)
    (currentHour : Nat) : RiskAssessment :=
  let highFrequency := riskCondFrequency recentActions
  let highRiskOperation := riskCondAction ctx
  let largeAmount := riskCondAmount ctx
  let unusualTime := riskCondTime currentHour
  let suspiciousIP := riskCondIP ctx
  let incompleteKyc := riskCondKyc ctx
  let riskScore :=
    (if highFrequency then 30 else 0) + (if highRiskOperation then 20 else 0) +
    (if largeAmount then 25 else 0) + (if unusualTime then 15 else 0) +
    (if suspiciousIP then 40 else 0) + (if incompleteKyc then 20 else 0)
  let riskFactors :=
    (if highFrequency then ["high_frequency_operations"] else []) ++
    (if highRiskOperation then ["high_risk_operation"] else []) ++
    (if largeAmount then ["large_transaction_amount"] else []) ++
    (if unusualTime then ["unusual_time_access"] else []) ++
    (if suspiciousIP then ["suspicious_ip_address"] else []) ++
    (if incompleteKyc then ["incomplete_kyc"] else [])
  let recommendation :=
    if riskScore ≥ 70 then Recommendation.DENY
    else if riskScore ≥ 50 then Recommendation.CHALLENGE
    else if riskScore ≥ 30 then Recommendation.MONITOR
    else Recommendation.ALLOW
  { score := riskScore, factors := riskFactors, recommendation := recommendation }

/-- `getRecentUserActions`: the audit-repository count query over the last
hour, whose result (or thrown error) lives in the environment. -/
def getRecentUserActions (env : AuditEnv) : Except String Nat :=
  env.recentActionsResult

/-- `assessRisk` of orchestration.service.ts. -/
def assessRisk (env : AuditEnv) (ctx : AuthContext) :
    Except String RiskAssessment :=
  (getRecentUserActions env).map fun recentActions =>
    assessRiskPure recentActions ctx env.currentHour

/-- The `highRiskActions` array inside `checkSessionConstraints` (listed in a
different order there than in `assessRisk`). -/
def sessionHighRiskActions : List String :=
  ["transfer", "withdraw", "admin", "delete"]

/-- `checkSessionConstraints` of orchestration.service.ts: starts from
`{ monitoringLevel: STANDARD }` and mutates the requirements object under
three independent guards. -/
def checkSessionConstraints (ctx : AuthContext) : SessionRequirements :=
  let requirements : SessionRequirements :=
    { monitoringLevel := some MonitoringLevel.STANDARD }
  let requirements :=
    if sessionHighRiskActions.contains ctx.action then
      { requirements with
          requireMFA := some true,
          maxSessionDuration := some (30 * 60),
          monitoringLevel := some MonitoringLevel.ENHANCED }
    else requirements
  let requirements :=
    if [UserRole.bank_admin, UserRole.compliance_officer].contains ctx.user.role then
      { requirements with
          requireMFA := some true,
          maxSessionDuration := some (60 * 60),
          monitoringLevel := some MonitoringLevel.STRICT }
    else requirements
  let requirements :=
    match ctx.mAmount with
    | some a =>
        if (a != 0) && decide (a > 50000) then
          { requirements with
              requireReauth := some true,
              monitoringLevel := some MonitoringLevel.STRICT }
        else requirements
    | none => requirements
  requirements

/-- `detectSuspiciousPatterns`: counts LOGIN_FAILED audit rows of the last
30 minutes (result in the environment) and reports the pattern when the
count exceeds 5. -/
def detectSuspiciousPatterns (env : AuditEnv) : Except String (List String) :=
  env.failedLoginResult.map fun failedAttempts =>
    if failedAttempts > 5 then ["multiple_failed_login_attempts"] else []

/-- The `holidays` array inside `checkIfHoliday`. -/
def holidays : List String := ["2025-01-01", "2025-12-25"]

/-- `checkIfHoliday` of orchestration.service.ts. -/
def checkIfHoliday (env : AuditEnv) : Bool :=
  holidays.contains env.todayStr

/-- `applyDynamicSecurityRules` of orchestration.service.ts: three veto rules
evaluated in order, first failure wins.  The guard
`metadata?.amount > 10000` compares `undefined` as false. -/
def applyDynamicSecurityRules (env : AuditEnv) (ctx : AuthContext) :
    Except String AuthDecision :=
  (detectSuspiciousPatterns env).map fun suspiciousPatterns =>
    if suspiciousPatterns.length > 0 then
      { allowed := false,
        reason := "Suspicious patterns detected: " ++
          String.intercalate ", " suspiciousPatterns }
    else if (ctx.user.kycStatus != KycStatus.approved) &&
        (ctx.action == "transfer") &&
        (match ctx.mAmount with
         | some a => decide (a > 10000)
         | none => false) then
      { allowed := false, reason := "Large transfers require KYC approval" }
    else if checkIfHoliday env &&
        [UserRole.client].contains ctx.user.role &&
        ["transfer", "withdraw"].contains ctx.action then
      { allowed := false,
        reason := "Banking operations limited during holidays" }
    else
      { allowed := true, reason := "All dynamic security rules passed" }

/-- `makeFinalDecision` of orchestration.service.ts. -/
def makeFinalDecision (roleCheck contextCheck : AuthDecision)
    (riskAssessment : RiskAssessment) (sessionCheck : SessionRequirements)
    (dynamicCheck : AuthDecision) : AuthDecision :=
  if !roleCheck.allowed || !contextCheck.allowed || !dynamicCheck.allowed then
    { allowed := false,
      reason := String.intercalate "; "
        (([roleCheck, contextCheck, dynamicCheck].filter
            fun check => !check.allowed).map fun check => check.reason),
      riskAssessment := some riskAssessment,
      sessionRequirements := some sessionCheck }
  else
    match riskAssessment.recommendation with
    | Recommendation.DENY =>
        { allowed := false,
          reason := "High risk operation denied (score: " ++
            toString riskAssessment.score ++ ")",
          riskAssessment := some riskAssessment,
          sessionRequirements := some sessionCheck }
    | Recommendation.CHALLENGE =>
        { allowed := true,
          reason := "Access granted with additional security requirements",
          riskAssessment := some riskAssessment,
          sessionRequirements := some
            { sessionCheck with
                requireMFA := some true,
                requireReauth := some true,
                monitoringLevel := some MonitoringLevel.ENHANCED } }
    | _ =>
        { allowed := true,
          reason := "Authorization granted",
          riskAssessment := some riskAssessment,
          sessionRequirements := some sessionCheck }

/-- `logAuthEvent` of orchestration.service.ts: `auditRepository.save` inside
its own try/catch, so a failing save is logged and swallowed — it persists no
record and raises nothing. -/
def logAuthEvent (env : AuditEnv) (ctx : AuthContext) (action : String)
    (details : String) : List AuditRecord :=
  if env.saveOk then
    [{ userId := ctx.user.id, action := action,
       resourceType := "authorization", resourceId := ctx.resource,
       details := details }]
  else []

/-- The body of the `try` block of `orchestrateAuthorization`: an
`Except.error` is an exception escaping to the method's `catch`. -/
def orchestrateBody (env : AuditEnv) (ctx : AuthContext) :
    Except String (AuthDecision × List AuditRecord) :=
  let roleCheck := checkRoleBasedAccess ctx
  if !roleCheck.allowed then
    Except.ok (roleCheck, logAuthEvent env ctx "ROLE_CHECK_FAILED" roleCheck.reason)
  else
    let contextCheck := checkContextualAccess env ctx
    if !contextCheck.allowed then
      Except.ok (contextCheck,
        logAuthEvent env ctx "CONTEXT_CHECK_FAILED" contextCheck.reason)
    else
      match assessRisk env ctx with
      | Except.error e => Except.error e
      | Except.ok riskAssessment =>
          let sessionCheck := checkSessionConstraints ctx
          match applyDynamicSecurityRules env ctx with
          | Except.error e => Except.error e
          | Except.ok dynamicCheck =>
              let finalDecision := makeFinalDecision roleCheck contextCheck
                riskAssessment sessionCheck dynamicCheck
              Except.ok (finalDecision,
                logAuthEvent env ctx
                  (if finalDecision.allowed then "ACCESS_GRANTED" else "ACCESS_DENIED")
                  finalDecision.reason)

/-- The safe default decision built in the `catch` block of
`orchestrateAuthorization`. -/
def systemErrorDecision : AuthDecision :=
  { allowed := false,
    reason := "Internal authorization error",
    riskAssessment := some
      { score := 100, factors := ["system_error"],
        recommendation := Recommendation.DENY } }

/-- `orchestrateAuthorization` of orchestration.service.ts for a context with
the subject attached (the typed `AuthContext` interface): any exception from
the body is caught, an ORCHESTRATION_ERROR event is logged and the safe
default decision is returned. -/
def orchestrateAuthorization (env : AuditEnv) (ctx : AuthContext) :
    AuthDecision × List AuditRecord :=
  match orchestrateBody env ctx with
  | Except.ok r => r
  | Except.error msg =>
      (systemErrorDecision, logAuthEvent env ctx "ORCHESTRATION_ERROR" msg)

/-- The raw (malformed-context) call surface: each of the three core fields
may be absent. -/
structure RawAuthContext where
  user : Option User := none
  resource : Option String := none
  action : Option String := none
  metadata : Option AuthMetadata := none

/-- The TypeError raised by `context.user.id` when `user` is absent. -/
def typeErrorMessage : String :=
  "TypeError: cannot read property id of undefined"

/-- `orchestrateAuthorization` called with a possibly malformed context.
The first statement of the method interpolates `context.user.id` BEFORE the
`try` block, so an absent subject raises a TypeError that propagates to the
caller (`Except.error`); an absent `resource` or `action` is interpolated and
looked up as `undefined`, which matches no key of the permission matrix and
no member of the action lists — coercing it to the string "undefined" (a
string occurring nowhere in the engine's tables) reproduces this exactly. -/
def orchestrateAuthorizationRaw (env : AuditEnv) (ctx : RawAuthContext) :
    Except String (AuthDecision × List AuditRecord) :=
  match ctx.user with
  | none => Except.error typeErrorMessage
  | some u =>
      Except.ok (orchestrateAuthorization env
        { user := u,
          resource := ctx.resource.getD "undefined",
          action := ctx.action.getD "undefined",
          metadata := ctx.metadata })

/-! Concrete fixtures used by the witness and counterexample theorems. -/

/-- A client subject with approved KYC. -/
def userB : User :=
  { id := "u1", role := UserRole.client, kycStatus := KycStatus.approved }

/-- A bank-admin subject with approved KYC. -/
def userAdmin : User :=
  { id := "a1", role := UserRole.bank_admin, kycStatus := KycStatus.approved }

/-- Scenario B of the spec: client, action `transfer`, amount 150000. -/
def ctxB : AuthContext :=
  { user := userB, resource := "banking/transactions", action := "transfer",
    metadata := some { amount := some 150000 } }

/-- A benign client read request carrying no metadata. -/
def ctxRead : AuthContext :=
  { user := userB, resource := "banking/accounts", action := "read" }

/-- A benign admin read request carrying no metadata. -/
def ctxAdminRead : AuthContext :=
  { user := userAdmin, resource := "banking/accounts", action := "read" }

/-- A healthy environment: noon, no holiday, both count queries succeed with
count 0, audit writes succeed. -/
def envB : AuditEnv :=
  { currentHour := 12, todayStr := "2025-06-15",
    recentActionsResult := Except.ok 0, failedLoginResult := Except.ok 0,
    saveOk := true }

/-- Environment whose one-hour audit-count query throws. -/
def envCountErr : AuditEnv :=
  { envB with recentActionsResult := Except.error "db down" }

/-- Environment reporting six LOGIN_FAILED records in the last 30 minutes. -/
def envSuspicious : AuditEnv :=
  { envB with failedLoginResult := Except.ok 6 }

/-- A raw context whose subject is absent. -/
def rawNoUser : RawAuthContext :=
  { user := none, resource := some "banking/accounts", action := some "read" }

/-- A raw client context whose action is absent. -/
def rawClientNoAction : RawAuthContext :=
  { user := some userB, resource := some "banking/accounts" }

/-- A raw admin context whose resource and action are both absent. -/
def rawAdminNoResource : RawAuthContext :=
  { user := some userAdmin }

/-- A client read request presenting an unrecognized device fingerprint. -/
def ctxDevice : AuthContext :=
  { user := userB, resource := "banking/accounts", action := "read",
    metadata := some { deviceFingerprint := some "dev-1" } }

/-- A maximal-risk request: every one of the six risk rules fires. -/
def ctxMax : AuthContext :=
  { user := { id := "u9", role := UserRole.client, kycStatus := KycStatus.not_started },
    resource := "banking/transactions", action := "transfer",
    metadata := some { ipAddress := some "192.168.1.100", amount := some 150000 } }

/-- Weighted score of the six risk-rule guards, in source order. -/
def riskScoreOfFlags (c1 c2 c3 c4 c5 c6 : Bool) : Nat :=
  (if c1 then 30 else 0) + (if c2 then 20 else 0) + (if c3 then 25 else 0) +
  (if c4 then 15 else 0) + (if c5 then 40 else 0) + (if c6 then 20 else 0)

/-- Role Check lookup following the words of the spec (section 4.1, section 8):
exact `(role, resource)` entry, else the role's wildcard-resource entry, and
within the matched entry exact action, else wildcard action.  This definition
follows the spec's words and exists only to be compared with the code's
`checkRoleBasedAccess`. -/
def roleCheckSpec (role : UserRole) (resource action : String) : Bool :=
  match ((permissions role).getD []).lookup resource with
  | some entry => entry.contains action || entry.contains "*"
  | none =>
    match ((permissions role).getD []).lookup "*" with
    | some entry => entry.contains action || entry.contains "*"
    | none => false

/-! Helper lemmas shared by the claim theorems. -/

/-- Joining a one-element list of reasons is that reason. -/
theorem intercalate_single (s x : String) : String.intercalate s [x] = x := rfl

/-- The risk score is the weighted sum of the six rule guards. -/
theorem assessRiskPure_score_eq (n : Nat) (ctx : AuthContext) (h : Nat) :
    (assessRiskPure n ctx h).score =
      riskScoreOfFlags (riskCondFrequency n) (riskCondAction ctx)
        (riskCondAmount ctx) (riskCondTime h) (riskCondIP ctx)
        (riskCondKyc ctx) := rfl

/-- Each weighted guard term is monotone in its guard. -/
theorem ite_weight_mono (c d : Bool) (w : Nat) (h : c ≤ d) :
    (if c then w else 0) ≤ (if d then w else 0) := by
  cases c
  · cases d <;> simp
  · cases d
    · exact absurd h (by decide)
    · simp

/-- The risk score never exceeds 150, the sum of the six rule weights. -/
theorem riskScore_le_150 (n : Nat) (ctx : AuthContext) (h : Nat) :
    (assessRiskPure n ctx h).score ≤ 150 := by
  rw [assessRiskPure_score_eq]
  unfold riskScoreOfFlags
  split_ifs <;> omega

/-! Claim theorems. -/

/-- C1 counterexample: on Scenario B (client transfer of 150000) the Role
Check reports `allowed = false`, yet the decision returned by
`orchestrateAuthorization` carries NO risk assessment and NO session
requirements — refuting the claim that a failing check still yields a merged
decision with the risk assessment and session requirements attached. -/
theorem c1_counterexample :
    (checkRoleBasedAccess ctxB).allowed = false ∧
    (orchestrateAuthorization envB ctxB).1.allowed = false ∧
    (orchestrateAuthorization envB ctxB).1.riskAssessment = none ∧
    (orchestrateAuthorization envB ctxB).1.sessionRequirements = none :=
  ⟨rfl, rfl, rfl, rfl⟩

/-- C1 (amended): the merger short-circuits.  A failing Role Check is
returned as-is (no risk assessment or session requirements, later stages not
run); a failing Contextual Check after a passing Role Check is likewise
returned as-is; only a failing Dynamic Rule result reaches
`makeFinalDecision`, whose reason join then reduces to the dynamic reason
alone, with the risk assessment and session requirements attached. -/
theorem c1_amended :
    (∀ env ctx, (checkRoleBasedAccess ctx).allowed = false →
      (orchestrateAuthorization env ctx).1 = checkRoleBasedAccess ctx) ∧
    (∀ env ctx, (checkRoleBasedAccess ctx).allowed = true →
      (checkContextualAccess env ctx).allowed = false →
      (orchestrateAuthorization env ctx).1 = checkContextualAccess env ctx) ∧
    (∀ env ctx ra dc, (checkRoleBasedAccess ctx).allowed = true →
      (checkContextualAccess env ctx).allowed = true →
      assessRisk env ctx = Except.ok ra →
      applyDynamicSecurityRules env ctx = Except.ok dc →
      dc.allowed = false →
      (orchestrateAuthorization env ctx).1 =
        { allowed := false, reason := dc.reason,
          riskAssessment := some ra,
          sessionRequirements := some (checkSessionConstraints ctx) }) := by
  refine ⟨?_, ?_, ?_⟩
  · intro env ctx h
    simp [orchestrateAuthorization, orchestrateBody, h]
  · intro env ctx h1 h2
    simp [orchestrateAuthorization, orchestrateBody, h1, h2]
  · intro env ctx ra dc h1 h2 hra hdc hd
    simp [orchestrateAuthorization, orchestrateBody, h1, h2, hra, hdc,
      makeFinalDecision, hd, intercalate_single]

/-- C1 witness: with six recent LOGIN_FAILED records, a client read passes
the role and contextual checks, the dynamic rules deny, and the final
decision carries the dynamic reason together with the risk assessment and
session requirements. -/
theorem c1_witness :
    (orchestrateAuthorization envSuspicious ctxRead).1 =
      { allowed := false,
        reason := "Suspicious patterns detected: multiple_failed_login_attempts",
        riskAssessment := some
          { score := 0, factors := [], recommendation := Recommendation.ALLOW },
        sessionRequirements := some
          { monitoringLevel := some MonitoringLevel.STANDARD } } :=
  c1_amended.2.2 envSuspicious ctxRead
    { score := 0, factors := [], recommendation := Recommendation.ALLOW }
    { allowed := false,
      reason := "Suspicious patterns detected: multiple_failed_login_attempts" }
    rfl rfl rfl rfl rfl

/-- C3 counterexample: on Scenario B exactly as claimed (client role, action
`transfer`, amount 150000, approved KYC, business hours, no audit records)
`orchestrateAuthorization` returns `allowed = false` with the role-check
denial as reason and no risk assessment, not `allowed = true` with score
45. -/
theorem c3_counterexample :
    (orchestrateAuthorization envB ctxB).1 =
      { allowed := false,
        reason := "Role client lacks transfer access to banking/transactions" } :=
  rfl

/-- C3 (amended): on Scenario B the Risk Scorer would compute score 45
(20 for the high-risk action plus 25 for the amount) with recommendation
MONITOR and the Session Policy Deriver would compute `requireReauth = true`
and `monitoringLevel = STRICT`, but the evaluation never reaches them: the
client role has no `transfer` grant, so the Role Check denies and
`orchestrateAuthorization` returns that denial alone. -/
theorem c3_scenarioB_amended :
    assessRiskPure 0 ctxB 12 =
      { score := 45,
        factors := ["high_risk_operation", "large_transaction_amount"],
        recommendation := Recommendation.MONITOR } ∧
    checkSessionConstraints ctxB =
      { requireMFA := some true, maxSessionDuration := some 1800,
        requireReauth := some true,
        monitoringLevel := some MonitoringLevel.STRICT } ∧
    (orchestrateAuthorization envB ctxB).1 =
      { allowed := false,
        reason := "Role client lacks transfer access to banking/transactions" } :=
  ⟨rfl, rfl, rfl⟩

/-- C4 counterexample: at local hour 22 — outside the claimed interval
`[6, 22)` — the Contextual Check of a client (a non-privileged role) adds no
restriction and reports `allowed = true`, because the source tests
`currentHour > 22`, not `currentHour >= 22`. -/
theorem c4_counterexample :
    (checkContextualAccess { envB with currentHour := 22 } ctxRead).allowed = true ∧
    (checkContextualAccess { envB with currentHour := 22 } ctxRead).additionalChecks
      = some [] :=
  ⟨rfl, rfl⟩

/-- C2 counterexample: when the audit append fails (`saveOk = false`) but the
pipeline itself succeeds, `orchestrateAuthorization` returns the normally
computed decision — here `allowed = true` — not the fail-closed decision with
risk score 100 that the claim prescribes for any throwing stage including the
audit append. -/
theorem c2_counterexample :
    ({ envB with saveOk := false } : AuditEnv).saveOk = false ∧
    (orchestrateAuthorization { envB with saveOk := false } ctxAdminRead).1.allowed
      = true ∧
    (orchestrateAuthorization { envB with saveOk := false } ctxAdminRead).1.riskAssessment
      ≠ some { score := 100, factors := ["system_error"],
               recommendation := Recommendation.DENY } :=
  ⟨rfl, rfl, by decide⟩

/-- C5 counterexample: a context with an absent subject does not produce a
fail-closed decision or an audit event: the interpolation of
`context.user.id` precedes the `try` block, so the call raises a TypeError
that propagates to the caller. -/
theorem c5_counterexample :
    orchestrateAuthorizationRaw envB rawNoUser = Except.error typeErrorMessage :=
  rfl

/-- C5 (amended): the engine performs no malformed-context validation.  An
absent subject makes `orchestrateAuthorization` throw to its caller before
any stage runs and before any audit event; an absent action flows into the
Role Check, which denies it for a client (no grant matches "undefined") but
a bank admin with absent resource and action is ALLOWED through the wildcard
grant and the full pipeline. -/
theorem c5_amended :
    (∀ env ctx, ctx.user = none →
      orchestrateAuthorizationRaw env ctx = Except.error typeErrorMessage) ∧
    (orchestrateAuthorizationRaw envB rawClientNoAction).map (fun r => r.1.allowed)
      = Except.ok false ∧
    (orchestrateAuthorizationRaw envB rawAdminNoResource).map (fun r => r.1.allowed)
      = Except.ok true := by
  refine ⟨?_, rfl, rfl⟩
  intro env ctx h
  unfold orchestrateAuthorizationRaw
  rw [h]

/-- C5 witness: the amended statement applied to a concrete subject-less
context. -/
theorem c5_witness :
    orchestrateAuthorizationRaw envB { user := none } = Except.error typeErrorMessage :=
  c5_amended.1 envB { user := none } rfl

/-- C2 (amended): `orchestrateAuthorization` is total — it always returns a
decision — and whenever an executed stage throws (either audit-count query
erroring while the role and contextual checks pass, so that the throwing
stage is actually reached) the returned decision is the fail-closed default
`allowed = false`, `riskAssessment = {score: 100, factors: [system_error],
recommendation: DENY}`.  An audit-append failure, by contrast, is swallowed
inside `logAuthEvent` and leaves the computed decision unchanged (see the C6
theorem). -/
theorem c2_amended (env : AuditEnv) (ctx : AuthContext)
    (hrole : (checkRoleBasedAccess ctx).allowed = true)
    (hctx : (checkContextualAccess env ctx).allowed = true)
    (herr : (∃ e, env.recentActionsResult = Except.error e) ∨
            (∃ e, env.failedLoginResult = Except.error e)) :
    (orchestrateAuthorization env ctx).1 = systemErrorDecision := by
  rcases herr with ⟨e, he⟩ | ⟨e, he⟩
  · simp [orchestrateAuthorization, orchestrateBody, assessRisk,
      getRecentUserActions, he, hrole, hctx, Except.map]
  · rcases hra : env.recentActionsResult with e2 | n
    · simp [orchestrateAuthorization, orchestrateBody, assessRisk,
        getRecentUserActions, hra, hrole, hctx, Except.map]
    · simp [orchestrateAuthorization, orchestrateBody, assessRisk,
        getRecentUserActions, hra, hrole, hctx, applyDynamicSecurityRules,
        detectSuspiciousPatterns, he, Except.map]

/-- C2 witness: an admin read in an environment whose one-hour count query
throws yields exactly the fail-closed default decision. -/
theorem c2_witness :
    (orchestrateAuthorization envCountErr ctxAdminRead).1 = systemErrorDecision :=
  c2_amended envCountErr ctxAdminRead rfl rfl (Or.inl ⟨"db down", rfl⟩)

/-- C4 (amended): the Contextual Check adds the night-hours restriction
exactly when the role is `client` AND the local hour satisfies
`hour < 6 ∨ hour > 22` (so hour 22 itself is NOT restricted); every other
role — including the non-privileged `account_manager` and `auditor` roles —
is never time-restricted. -/
theorem c4_amended (env : AuditEnv) (ctx : AuthContext) :
    nightHoursRestriction ∈ (checkContextualAccess env ctx).additionalChecks.getD []
      ↔ ctx.user.role = UserRole.client ∧
          (env.currentHour < 6 ∨ env.currentHour > 22) := by
  have hip : ("Banking operations restricted during night hours (6 AM - 10 PM)" : String)
      ≠ "Access from suspicious IP address" := by decide
  have hdev : ("Banking operations restricted during night hours (6 AM - 10 PM)" : String)
      ≠ "Access from unrecognized device" := by decide
  by_cases hc : ctx.user.role = UserRole.client ∧
      (env.currentHour < 6 ∨ env.currentHour > 22)
  · simp [checkContextualAccess, hc]
  · rcases hmi : ctx.mIpAddress with _ | ip <;>
      rcases hmd : ctx.mDeviceFingerprint with _ | fp <;>
        simp only [checkContextualAccess, hmi, hmd, if_neg hc, List.nil_append,
          Option.getD_some, iff_false_intro hc, iff_false, nightHoursRestriction] <;>
          split_ifs <;>
            simp_all

/-- C6: an audit-append failure never changes the decision; whatever the
outcome of `auditRepository.save`, `orchestrateAuthorization` computes the
same decision as when every append succeeds. -/
theorem c6_audit_write_never_changes_decision (env : AuditEnv)
    (ctx : AuthContext) (b : Bool) :
    (orchestrateAuthorization { env with saveOk := b } ctx).1 =
      (orchestrateAuthorization env ctx).1 := by
  have hctx : checkContextualAccess { env with saveOk := b } ctx =
      checkContextualAccess env ctx := rfl
  have hra : assessRisk { env with saveOk := b } ctx = assessRisk env ctx := rfl
  have hdy : applyDynamicSecurityRules { env with saveOk := b } ctx =
      applyDynamicSecurityRules env ctx := rfl
  unfold orchestrateAuthorization orchestrateBody
  rw [hctx, hra, hdy]
  cases hr : (checkRoleBasedAccess ctx).allowed <;>
    cases hc : (checkContextualAccess env ctx).allowed <;>
      rcases hr2 : assessRisk env ctx with e | ra <;>
        rcases hd2 : applyDynamicSecurityRules env ctx with e2 | dc <;>
          simp [hr, hc, hr2, hd2]

/-- C7: the Role Check allows exactly what the spec's lookup order allows —
the administrative role is allowed for every `(resource, action)` pair,
`allowed` coincides with the exact-entry / wildcard-resource /
exact-action / wildcard-action lookup, and any other role is denied whenever
the action is absent from its effective (explicit or wildcard) grant list. -/
theorem c7_role_check :
    (∀ ctx : AuthContext, ctx.user.role = UserRole.bank_admin →
      (checkRoleBasedAccess ctx).allowed = true) ∧
    (∀ ctx : AuthContext,
      (checkRoleBasedAccess ctx).allowed =
        roleCheckSpec ctx.user.role ctx.resource ctx.action) ∧
    (∀ ctx : AuthContext, ctx.user.role ≠ UserRole.bank_admin →
      ¬ ctx.action ∈ resourcePermissionsFor ctx.user.role ctx.resource →
      ¬ "*" ∈ resourcePermissionsFor ctx.user.role ctx.resource →
      (checkRoleBasedAccess ctx).allowed = false) := by
  refine ⟨?_, ?_, ?_⟩
  · intro ctx h
    by_cases hres : ctx.resource = "*"
    · simp [checkRoleBasedAccess, resourcePermissionsFor, h, permissions,
        List.lookup, hres, Option.orElse]
    · have hres2 : (ctx.resource == "*") = false := beq_eq_false_iff_ne.mpr hres
      simp [checkRoleBasedAccess, resourcePermissionsFor, h, permissions,
        List.lookup, hres2, Option.orElse]
  · intro ctx
    unfold checkRoleBasedAccess roleCheckSpec resourcePermissionsFor
    rcases h1 : (((permissions ctx.user.role).getD []).lookup ctx.resource)
        with _ | e1 <;>
      rcases h2 : (((permissions ctx.user.role).getD []).lookup "*")
          with _ | e2 <;>
        simp [h1, h2, Option.orElse]
  · intro ctx hrole hact hstar
    simp [checkRoleBasedAccess]
    exact ⟨hact, hstar⟩

/-- C7 witness: a client asking to `delete` on `banking/accounts` holds no
matching grant and is denied. -/
theorem c7_witness :
    (checkRoleBasedAccess
      { user := userB, resource := "banking/accounts", action := "delete" }).allowed
      = false :=
  c7_role_check.2.2
    { user := userB, resource := "banking/accounts", action := "delete" }
    (by decide) (by decide) (by decide)

/-- C8: the risk score is monotone non-decreasing in each triggering
condition: between two requests in which every risk-rule guard either keeps
its firing status or additionally fires (in particular when exactly one more
rule fires and the rest are unchanged), the total score never decreases. -/
theorem c8_risk_monotone (n m : Nat) (ctx ctx2 : AuthContext) (h h2 : Nat)
    (hf : riskCondFrequency n ≤ riskCondFrequency m)
    (ha : riskCondAction ctx ≤ riskCondAction ctx2)
    (hm : riskCondAmount ctx ≤ riskCondAmount ctx2)
    (ht : riskCondTime h ≤ riskCondTime h2)
    (hi : riskCondIP ctx ≤ riskCondIP ctx2)
    (hk : riskCondKyc ctx ≤ riskCondKyc ctx2) :
    (assessRiskPure n ctx h).score ≤ (assessRiskPure m ctx2 h2).score := by
  rw [assessRiskPure_score_eq, assessRiskPure_score_eq]
  unfold riskScoreOfFlags
  have t1 := ite_weight_mono _ _ 30 hf
  have t2 := ite_weight_mono _ _ 20 ha
  have t3 := ite_weight_mono _ _ 25 hm
  have t4 := ite_weight_mono _ _ 15 ht
  have t5 := ite_weight_mono _ _ 40 hi
  have t6 := ite_weight_mono _ _ 20 hk
  omega

/-- C8 witness: adding the large-amount factor to a benign client read (all
other guards unchanged) does not lower the score. -/
theorem c8_witness :
    (assessRiskPure 0 ctxRead 12).score ≤
      (assessRiskPure 0
        { ctxRead with metadata := some { amount := some 150000 } } 12).score :=
  c8_risk_monotone 0 0 ctxRead
    { ctxRead with metadata := some { amount := some 150000 } } 12 12
    (by decide) (by decide) (by decide) (by decide) (by decide) (by decide)

/-- C9 counterexample: the risk score is NOT unbounded above — no request
context ever scores more than 150, so no context exceeds the bound 150. -/
theorem c9_counterexample :
    ¬ (∀ B : Nat, ∃ (n : Nat) (ctx : AuthContext) (h : Nat),
        (assessRiskPure n ctx h).score > B) := by
  intro hcl
  obtain ⟨n, ctx, h, hgt⟩ := hcl 150
  exact absurd hgt (Nat.not_lt.mpr (riskScore_le_150 n ctx h))

/-- C9 (amended): the risk score is bounded above by 150 — the sum
30+20+25+15+40+20 of the six rule weights — and the bound is attained by a
request firing all six rules. -/
theorem c9_score_bounded :
    (∀ (n : Nat) (ctx : AuthContext) (h : Nat),
      (assessRiskPure n ctx h).score ≤ 150) ∧
    (assessRiskPure 51 ctxMax 2).score = 150 :=
  ⟨riskScore_le_150, rfl⟩

/-- C10: the trusted-device list the Contextual Check consults is always
empty (the `User` entity has no `metadata` column), so any request carrying
a (non-empty, i.e. JavaScript-truthy) device fingerprint picks up the
`Access from unrecognized device` restriction and is denied by the
Contextual Check. -/
theorem c10_unrecognized_device (env : AuditEnv) (ctx : AuthContext)
    (fp : String) (hfp : ctx.mDeviceFingerprint = some fp) (hne : fp ≠ "") :
    (∀ u : User, trustedDevices u = []) ∧
    "Access from unrecognized device" ∈
      (checkContextualAccess env ctx).additionalChecks.getD [] ∧
    (checkContextualAccess env ctx).allowed = false := by
  have hb : (fp != "" && !((trustedDevices ctx.user).contains fp)) = true := by
    simp [trustedDevices, hne]
  refine ⟨fun _ => rfl, ?_, ?_⟩
  · simp [checkContextualAccess, hfp, hb]
    exact Or.inr (Or.inr ⟨hne, by simp [trustedDevices]⟩)
  · simp [checkContextualAccess, hfp, hb]
    intro h1 h2
    exact ⟨hne, by simp [trustedDevices]⟩

/-- C10 witness: a concrete client read presenting fingerprint "dev-1" is
denied by the Contextual Check. -/
theorem c10_witness :
    (checkContextualAccess envB ctxDevice).allowed = false :=
  (c10_unrecognized_device envB ctxDevice "dev-1" rfl (by decide)).2.2

end OAA
